import Mathlib

/-!
Shallow embedding of the build-orchestration scripts of `ririv/android-wheels`
(`.github/scripts/build/build_android_wheel.py`, `build_utils.py`,
`build_with_cross.py`), together with theorems settling the specification
claims about them.

Python strings are modelled as Lean `String`; `str.replace` and `str.split`
are re-implemented on `List Char` with the Python non-overlapping
left-to-right semantics (fuel-based, so that concrete instances reduce in
the kernel).  File systems, network and subprocess calls are modelled by
explicit state records, oracles, and effect traces.
-/

/-! ## Python string primitives -/

/-- Does `pat` occur as a contiguous sublist of `s`? -/
def listIsInfix (pat : List Char) : List Char → Bool
  | [] => pat.isPrefixOf []
  | c :: cs => pat.isPrefixOf (c :: cs) || listIsInfix pat cs

/-- Python `pat in s` (substring containment). -/
def strContains (s pat : String) : Bool :=
  listIsInfix pat.data s.data

/-- Python `s.startswith(pat)`. -/
def strStartsWith (s pat : String) : Bool :=
  pat.data.isPrefixOf s.data

/-- Python `s.endswith(pat)`. -/
def strEndsWith (s pat : String) : Bool :=
  pat.data.reverse.isPrefixOf s.data.reverse

/-- Worker for `pyReplace`: replaces non-overlapping occurrences of `pat`
(left to right) by `repl`, as Python `str.replace` does.  `fuel` bounds the
recursion; `fuel = s.length` always suffices because every step consumes at
least one character of `s`. -/
def pyReplaceFuel (pat repl : List Char) : Nat → List Char → List Char
  | 0, s => s
  | _ + 1, [] => []
  | n + 1, c :: cs =>
      if pat ≠ [] ∧ pat.isPrefixOf (c :: cs) then
        repl ++ pyReplaceFuel pat repl n (List.drop (pat.length - 1) cs)
      else
        c :: pyReplaceFuel pat repl n cs

/-- Python `s.replace(pat, repl)` (all occurrences, non-overlapping,
left to right).  All patterns used by the scripts are nonempty, so the
empty-pattern behaviour is irrelevant; we return `s` there. -/
def pyReplace (s pat repl : String) : String :=
  if pat.data = [] then s
  else ⟨pyReplaceFuel pat.data repl.data s.data.length s.data⟩

/-- Worker for `pySplit`; `acc` is the current chunk, reversed. -/
def pySplitFuel (sep : List Char) : Nat → List Char → List Char → List (List Char)
  | 0, acc, s => [acc.reverse ++ s]
  | _ + 1, acc, [] => [acc.reverse]
  | n + 1, acc, c :: cs =>
      if sep ≠ [] ∧ sep.isPrefixOf (c :: cs) then
        acc.reverse :: pySplitFuel sep n [] (List.drop (sep.length - 1) cs)
      else
        pySplitFuel sep n (c :: acc) cs

/-- Python `s.split(sep)` for a nonempty separator `sep`. -/
def pySplit (s sep : String) : List String :=
  (pySplitFuel sep.data (s.data.length + 1) [] s.data).map (fun l => ⟨l⟩)

/-- Python `int(s)` restricted to plain ASCII-decimal literals (the only
shape the scripts ever feed it: the numeric tail of a tag name or of a
version string); any other input is a parse failure (`ValueError`). -/
def parseDecimal? (s : String) : Option Nat :=
  if s.data ≠ [] ∧ s.data.all Char.isDigit then
    some (s.data.foldl (fun n c => n * 10 + (c.toNat - 48)) 0)
  else
    none

/-! ## Process-environment model

A Python `dict[str, str]` environment is modelled as a finite-support map
`String → Option String`. -/

/-- `env[k] = v`. -/
def Env : Type := String → Option String

/-- `env[k] = v`. -/
def envSet (e : Env) (k v : String) : Env :=
  fun q => if q = k then some v else e q

/-- `env.pop(k, None)` (the resulting environment). -/
def envPop (e : Env) (k : String) : Env :=
  fun q => if q = k then none else e q

/-- `env.get(k, d)`. -/
def envGetD (e : Env) (k d : String) : String :=
  (e k).getD d

/-- `env.setdefault(k, v)` (the resulting environment). -/
def envSetdefault (e : Env) (k v : String) : Env :=
  match e k with
  | some _ => e
  | none => envSet e k v

/-! ## `build_utils.patch_pyo3_cargo_toml`

The function parses `Cargo.toml`, looks at `dependencies.pyo3`, normalizes
a bare version string to a table, ensures `extension-module` is in its
feature list, and writes the file back only when it changed.  We model the
file at the level of its parsed TOML value (the part the function reads or
writes), relying on the determinism of `tomli_w.dump` and the round-trip
`tomllib.load ∘ tomli_w.dump = id` for the byte-level reading of the claim. -/

/-- The `dependencies.pyo3` entry of a parsed `Cargo.toml`. -/
inductive Pyo3Dep
  /-- `pyo3 = "0.20"`: a bare version string. -/
  | verStr (v : String)
  /-- `pyo3 = { version = ..., features = [...] }`: a table; `version?` is
  its `version` key (if any) and `features` its feature list (`[]` when the
  `features` key is absent, matching `pyo3_dep.get("features", [])`). -/
  | table (version? : Option String) (features : List String)
  /-- any other TOML shape (the "unsupported format" branch). -/
  | unsupported
deriving DecidableEq

/-- The slice of a parsed `Cargo.toml` that `patch_pyo3_cargo_toml` touches:
`none` when there is no `dependencies.pyo3` entry. -/
structure CargoToml where
  pyo3 : Option Pyo3Dep
deriving DecidableEq

/-- `build_utils.patch_pyo3_cargo_toml`.  Input `none` models a missing
`Cargo.toml` file.  Returns the resulting file state and whether the file
was written back. -/
def patch_pyo3_cargo_toml : Option CargoToml → Option CargoToml × Bool
  | none => (none, false)
  | some data =>
    match data.pyo3 with
    | none => (some data, false)
    | some (.verStr v) =>
        -- converted to a table; `features` defaults to `[]`, which never
        -- contains "extension-module", so the flag is appended and the
        -- file is written.
        (some ⟨some (.table (some v) ["extension-module"])⟩, true)
    | some (.table version? features) =>
        if "extension-module" ∈ features then
          (some ⟨some (.table version? features)⟩, false)
        else
          (some ⟨some (.table version? (features ++ ["extension-module"]))⟩, true)
    | some .unsupported => (some data, false)

/-! ## `build_utils.patch_orjson_for_android`

(Identical, post string-escaping, in `build_with_cross.py` and
`build_with_zig.py`.)  Operates textually on two files of the orjson
source tree. -/

/-- The whole-file guard prepended to `src/str/avx512.rs`. -/
def orjsonAvxGuard : String :=
  "#![cfg(any(target_arch = \"x86\", target_arch = \"x86_64\"))]"

/-- The inline guard inserted in `src/str/pystr.rs`. -/
def orjsonCfgGuard : String :=
  "#[cfg(any(target_arch = \"x86\", target_arch = \"x86_64\"))]"

/-- The avx512 feature-detection call site matched in `pystr.rs`. -/
def avx512DetectPat : String :=
  "if std::is_x86_feature_detected!(\"avx512vl\") \x7b"

/-- The avx2 feature-detection call site matched in `pystr.rs`. -/
def avx2DetectPat : String :=
  "if std::is_x86_feature_detected!(\"avx2\") \x7b"

/-- The `avx512.rs` half of `patch_orjson_for_android`: prepend the
whole-file guard unless it is already present (substring check). -/
def patch_avx512_rs (txt : String) : String :=
  if strContains txt orjsonAvxGuard then txt
  else orjsonAvxGuard ++ "\n" ++ txt

/-- The `pystr.rs` half of `patch_orjson_for_android`: wrap the two
feature-detection call sites with the inline guard via `str.replace`
(the file is written back only when the text changed, but the resulting
contents are this value either way). -/
def patch_pystr_rs (txt : String) : String :=
  let p1 := pyReplace txt avx512DetectPat (orjsonCfgGuard ++ "\n        " ++ avx512DetectPat)
  pyReplace p1 avx2DetectPat (orjsonCfgGuard ++ "\n        " ++ avx2DetectPat)

/-- `patch_orjson_for_android` on the pair of file states (`none` = the
file does not exist; a missing file is skipped). -/
def patch_orjson_for_android (avx512 pystr : Option String) :
    Option String × Option String :=
  (avx512.map patch_avx512_rs, pystr.map patch_pystr_rs)

/-! ## `build_android_wheel.py`: filesystem/network effect traces -/

/-- Observable network / filesystem-mutating actions performed by the
provisioning functions.  Path arithmetic (`Path.with_suffix`, `Path.parent`)
is carried as plain strings. -/
inductive Effect
  /-- `urllib.request.urlretrieve url` -/
  | download (url : String)
  /-- `shutil.unpack_archive archive dest` -/
  | extract (archive dest : String)
  /-- `Path.rename` -/
  | renameDir (src dest : String)
  /-- `Path.unlink` -/
  | unlink (path : String)
  /-- granting execute permission to every file under a directory -/
  | chmodExecAll (dir : String)
deriving DecidableEq

/-- `setup_ndk`: the list of effects performed, given whether `ndk_path`
already exists.  `ndkParent` is `ndk_path.parent` as a string.  On a cache
hit the function prints and returns immediately. -/
def setup_ndk (ndkPathExists : Bool) (ndkPath ndkParent ndkVersion : String) :
    List Effect :=
  if ndkPathExists then []
  else
    let ndkZipPath := ndkPath ++ ".zip"
    let ndkUrl := "https://dl.google.com/android/repository/android-ndk-" ++ ndkVersion ++ "-linux.zip"
    [ .download ndkUrl,
      .extract ndkZipPath ndkParent,
      .renameDir (ndkParent ++ "/android-ndk-" ++ ndkVersion) ndkPath,
      .unlink ndkZipPath,
      .chmodExecAll (ndkPath ++ "/toolchains/llvm/prebuilt/linux-x86_64/bin") ]

/-! ## `get_latest_patch_for_python`

The pagination loop fetches the GitHub tag listing page by page, following
the `Link: rel="next"` header; a page fetch is modelled as either a failure
(`urlopen`/`json.load` raising) or a parsed list of tag names together with
whether a next-page link is present. -/

/-- One fetched page of the CPython tag listing. -/
inductive TagsPage
  /-- the fetch or JSON parse raised -/
  | fetchErr
  /-- a parsed page: its tag names, and whether the `Link` header carries a
  `rel="next"` entry -/
  | page (tags : List String) (hasNext : Bool)

/-- The per-tag filter/parse step of the loop body: a tag contributes a
patch number iff its name starts with `v{major}.{minor}.` and
`int(tag_name[1:].split(".")[-1])` parses; parse failures are skipped
(`continue`), not fatal. -/
def tagPatchNum (pythonVersion tag : String) : Option Nat :=
  if strStartsWith tag ("v" ++ pythonVersion ++ ".") then
    parseDecimal? (((pySplit (tag.drop 1) ".").getLast?).getD "")
  else
    none

/-- The pagination loop: walks the pages in fetch order, accumulating patch
numbers; stops after the first page without a next-page link; returns
`none` as soon as any fetch fails (the `except` clause), discarding
everything collected so far.  An exhausted page list while a next link is
still pending is a failed fetch. -/
def collectPatchNums (pythonVersion : String) : List TagsPage → Option (List Nat)
  | [] => none
  | .fetchErr :: _ => none
  | .page tags hasNext :: rest =>
      let nums := tags.filterMap (tagPatchNum pythonVersion)
      if hasNext then
        (collectPatchNums pythonVersion rest).map (fun more => nums ++ more)
      else
        some nums

/-- `get_latest_patch_for_python`, as a function of the page stream the
network would serve.  Any fetch failure, and also an empty collected set,
falls back to `{major}.{minor}.0`; otherwise the result is
`{major}.{minor}.{max}`. -/
def get_latest_patch_for_python (pythonVersion : String) (pages : List TagsPage) :
    String :=
  match collectPatchNums pythonVersion pages with
  | none => pythonVersion ++ ".0"
  | some [] => pythonVersion ++ ".0"
  | some nums => pythonVersion ++ "." ++ toString (nums.foldl Nat.max 0)

/-- Specification-side description of what a full pagination pass
collects: the parsed patch numbers of all pages of the followed chain, in
page order (used to state the latest-patch-resolution claim). -/
def collectedNums (pythonVersion : String) (body : List (List String))
    (lastTags : List String) : List Nat :=
  body.foldr (fun ts acc => ts.filterMap (tagPatchNum pythonVersion) ++ acc)
    (lastTags.filterMap (tagPatchNum pythonVersion))

/-! ## `setup_python_cross_build` -/

/-- `python_version.split(".")` must yield exactly two `int`-parsable
components (`major_str, minor_str = python_version.split(".")` followed by
`int(...)`); anything else raises. -/
def pyVersionParts (v : String) : Option (Nat × Nat) :=
  match pySplit v "." with
  | [a, b] =>
      match parseDecimal? a, parseDecimal? b with
      | some x, some y => some (x, y)
      | _, _ => none
  | _ => none

/-- The external-world facts `setup_python_cross_build` consults. -/
structure PyWorld where
  /-- `(download_path / "prefix" / "lib").is_dir()` on entry -/
  libDirExists : Bool
  /-- `archive_path.exists()` -/
  archiveExists : Bool
  /-- `urllib.request.urlretrieve` succeeds -/
  downloadOk : Bool
  /-- when the download fails: it raised `HTTPError` with code 404 -/
  downloadIs404 : Bool
  /-- `(download_path / "prefix" / "lib").is_dir()` after extraction -/
  extractCreatesLibDir : Bool
deriving DecidableEq

/-- Exceptions `setup_python_cross_build` can raise. -/
inductive PyErr
  | valueError (msg : String)
  | httpError (is404 : Bool)
  | fileNotFound (msg : String)
deriving DecidableEq

/-- `setup_python_cross_build`: result (the returned lib directory or the
raised exception) together with the effect trace.  `latestPatch` stands for
the value `get_latest_patch_for_python(python_version)` would return in the
`minor >= 14` branch (that call performs no filesystem mutation and never
raises). -/
def setup_python_cross_build (w : PyWorld)
    (downloadPath pythonVersion targetTriplet latestPatch : String) :
    Except PyErr String × List Effect :=
  let libDir := downloadPath ++ "/prefix/lib"
  if w.libDirExists then
    (.ok libDir, [])
  else
    match pyVersionParts pythonVersion with
    | none => (.error (.valueError "invalid python version string"), [])
    | some (_major, minor) =>
      if minor < 13 then
        (.error (.valueError "Python < 3.13 is not supported for pre-built downloads. Please build it yourself."), [])
      else
        let fullVersion? :=
          if minor = 13 then
            -- python_version_map = {"3.13": "3.13.9"}
            if pythonVersion = "3.13" then some "3.13.9" else none
          else
            some latestPatch
        match fullVersion? with
        | none =>
            (.error (.valueError ("Could not determine full version for Python " ++ pythonVersion)), [])
        | some fullVersion =>
          let fileName := "python-" ++ fullVersion ++ "-" ++ targetTriplet ++ ".tar.gz"
          let downloadUrl :=
            if minor = 13 then
              "https://raw.githubusercontent.com/ririv/android-wheels/cpython-android/" ++ pythonVersion ++ "/" ++ fileName
            else
              "https://www.python.org/ftp/python/" ++ fullVersion ++ "/" ++ fileName
          let archivePath := downloadPath ++ "/" ++ fileName
          if ¬ w.archiveExists ∧ ¬ w.downloadOk then
            (.error (.httpError w.downloadIs404), [.download downloadUrl])
          else
            let dl : List Effect := if w.archiveExists then [] else [.download downloadUrl]
            let effs := dl ++ [.extract archivePath downloadPath]
            if w.extractCreatesLibDir then
              (.ok libDir, effs)
            else
              (.error (.fileNotFound ("Could not locate prefix/lib directory at " ++ libDir ++ " after extraction.")), effs)

/-! ## `build_wheel` (native strategy) -/

/-- The verbose linker flag added for diagnostics. -/
def verboseLinkerFlag : String := "-C link-arg=-Wl,-v"

/-- The environment-mutation segment of `build_wheel` up to (excluding)
the final `RUSTFLAGS` line: PyO3 cross flags, the `PYO3_CROSS_LIB_DIR` for
Android triplets, and the orjson/aarch64 overrides (popping `RUSTFLAGS`,
defaulting `ORJSON_DISABLE_YYJSON`; the source-tree patch performed in the
same branch is a filesystem action, not an env one). -/
def buildWheelEnvPre (env0 : Env)
    (libraryName targetTriplet pythonVersion pythonLibDir : String) : Env :=
  let env := envSet env0 "PYO3_CROSS" "1"
  let env := envSet env "PYO3_CROSS_PYTHON_VERSION" pythonVersion
  let env := envSet env "PYO3_CROSS_PYTHON_IMPLEMENTATION"
      (envGetD env "PYO3_CROSS_PYTHON_IMPLEMENTATION" "CPython")
  let env :=
    if strContains targetTriplet "android" then
      envSet env "PYO3_CROSS_LIB_DIR" pythonLibDir
    else env
  if libraryName = "orjson" ∧
      (strContains targetTriplet "aarch64" ∨ strContains targetTriplet "arm64") then
    envSetdefault (envPop env "RUSTFLAGS") "ORJSON_DISABLE_YYJSON" "1"
  else env

/-- The `build_env` that `build_wheel` hands to the maturin invocation:
the mutations above, followed by re-assigning `RUSTFLAGS` to its previous
value (defaulting to the empty string), a space, and the verbose linker
flag. -/
def buildWheelEnv (env0 : Env)
    (libraryName targetTriplet pythonVersion pythonLibDir : String) : Env :=
  let env := buildWheelEnvPre env0 libraryName targetTriplet pythonVersion pythonLibDir
  envSet env "RUSTFLAGS" (envGetD env "RUSTFLAGS" "" ++ " " ++ verboseLinkerFlag)

/-- The maturin command line `build_wheel` constructs.  The `-i
{interpreter}` argument is commented out in the source: the one command it
ever runs leaves interpreter selection to maturin. -/
def maturin_build_cmd (maturinExe targetTriplet : String) : List String :=
  [maturinExe, "build", "--release", "--target", targetTriplet]

/-- Exceptions the build functions can raise. -/
inductive BuildErr
  /-- `ValueError` (missing `pyproject.toml`, or a non-maturin backend) -/
  | valueError (msg : String)
  /-- `subprocess.CalledProcessError` from `run(... check=True)` -/
  | calledProcessError (cmd : List String)
deriving DecidableEq

/-- The command-execution skeleton of `build_wheel`: the `pyproject.toml`
existence and backend checks, the `rustup target add` invocation, the env
mutation, and the single maturin invocation.  `runFails` is the oracle for
which external commands fail; a failing `run` raises and the exception
propagates (there is no `try` around the maturin call, hence no retry).
Returns the commands attempted, in order, and the outcome.  The venv
provisioning (`ensure_maturin_venv`, whose commands are uv/pip invocations,
never the maturin executable) and the `.cargo/config.toml` write are
elided. -/
def build_wheel (pyprojectExists : Bool) (backend : String) (maturinExe : String)
    (env0 : Env) (libraryName targetTriplet pythonVersion pythonLibDir : String)
    (runFails : List String → Bool) :
    List (List String) × Except BuildErr Unit :=
  if ¬ pyprojectExists then
    ([], .error (.valueError "pyproject.toml required"))
  else if backend ≠ "maturin" then
    ([], .error (.valueError "non-maturin backend detected"))
  else
    let rustupCmd := ["rustup", "target", "add", targetTriplet]
    if runFails rustupCmd then
      ([rustupCmd], .error (.calledProcessError rustupCmd))
    else
      let _env := buildWheelEnv env0 libraryName targetTriplet pythonVersion pythonLibDir
      let buildCmd := maturin_build_cmd maturinExe targetTriplet
      if runFails buildCmd then
        ([rustupCmd, buildCmd], .error (.calledProcessError buildCmd))
      else
        ([rustupCmd, buildCmd], .ok ())

/-! ## `process_wheel` (artifact discovery and renaming) -/

/-- A directory entry: file name (for the recursive search, the path
relative to the project root) and modification time. -/
structure FileEntry where
  name : String
  mtime : Nat
deriving DecidableEq

/-- `path.glob("*.whl")` over a directory listing: exactly the entries
whose name ends in `.whl`. -/
def globWhl (files : List FileEntry) : List FileEntry :=
  files.filter (fun f => strEndsWith f.name ".whl")

/-- `sorted(wheel_files, key=lambda p: p.stat().st_mtime, reverse=True)[0]`:
the head of a stable descending sort by mtime is the first entry attaining
the maximal mtime, which this fold computes. -/
def newestFirst : List FileEntry → Option FileEntry
  | [] => none
  | f :: fs => some (fs.foldl (fun best g => if best.mtime < g.mtime then g else best) f)

/-- The candidate set of the discovery phase of `process_wheel`: glob the
strategy-specific primary directory (`target/wheels` for maturin, `dist`
otherwise); only if that is empty, glob recursively under the project
root. -/
def wheelCandidates (isMaturin : Bool)
    (targetWheelsDir distDir recursiveListing : List FileEntry) : List FileEntry :=
  let primary := if isMaturin then targetWheelsDir else distDir
  let wheelFiles := globWhl primary
  if wheelFiles.isEmpty then globWhl recursiveListing else wheelFiles

/-- The discovery phase of `process_wheel`: zero candidates raises
`FileNotFoundError`; otherwise the most recently modified candidate is
picked. -/
def discoverWheel (isMaturin : Bool)
    (targetWheelsDir distDir recursiveListing : List FileEntry) :
    Except String FileEntry :=
  match newestFirst (wheelCandidates isMaturin targetWheelsDir distDir recursiveListing) with
  | none => .error "No wheel files found after build."
  | some f => .ok f

/-- The renaming phase of `process_wheel`: the canonical artifact name.
When no version is pinned, the version is the second dash-separated
segment of the discovered wheel filename itself (`len(parts) >= 2`
required, else `ValueError`). -/
def processWheelName (libraryName : String) (libraryVersion : Option String)
    (wheelName pythonVersion androidApi targetAbi : String) :
    Except String String :=
  let normalizedLibName := pyReplace libraryName "-" "_"
  let platformArch := pyReplace targetAbi "-" "_"
  let pyTag := "cp" ++ pyReplace pythonVersion "." ""
  let mkName := fun (versionToUse : String) =>
    normalizedLibName ++ "-" ++ versionToUse ++ "-" ++ pyTag ++ "-" ++ pyTag
      ++ "-android_" ++ androidApi ++ "_" ++ platformArch ++ ".whl"
  match libraryVersion with
  | some v => .ok (mkName v)
  | none =>
      -- parts = wheel_path.name.split("-"); len(parts) >= 2 iff the list
      -- has shape name :: version :: rest, and then parts[1] = version.
      match pySplit wheelName "-" with
      | _ :: version :: _ => .ok (mkName version)
      | _ => .error ("Cannot extract version from wheel filename: " ++ wheelName)

/-- `process_wheel` up to the final move: discovery composed with
renaming (the `mkdir`/`shutil.move` of the named artifact into the output
directory is elided). -/
def process_wheel (libraryName : String) (libraryVersion : Option String)
    (isMaturin : Bool) (targetWheelsDir distDir recursiveListing : List FileEntry)
    (pythonVersion androidApi targetAbi : String) : Except String String :=
  match discoverWheel isMaturin targetWheelsDir distDir recursiveListing with
  | .error e => .error e
  | .ok wheel =>
      processWheelName libraryName libraryVersion wheel.name pythonVersion androidApi targetAbi

/-! ## `build_with_cross.build_wheel_with_cross`

Its environment derivation: a copy of the ambient environment extended with
`CARGO_COMMAND=cross` and the PyO3 cross flags; for Android triplets
`PYO3_CROSS_LIB_DIR` is deliberately not set (the source only prints a
message), and the function receives no Python-runtime location at all. -/

/-- The environment `build_wheel_with_cross` passes to its maturin
invocation. -/
def crossBuildEnv (env0 : Env) (libraryName targetTriplet pythonVersion : String) : Env :=
  let env := envSet env0 "CARGO_COMMAND" "cross"
  let env := envSet env "PYO3_CROSS" "1"
  let env := envSet env "PYO3_CROSS_PYTHON_VERSION" pythonVersion
  let env := envSet env "PYO3_CROSS_PYTHON_IMPLEMENTATION"
      (envGetD env "PYO3_CROSS_PYTHON_IMPLEMENTATION" "CPython")
  -- Android targets: PYO3_CROSS_LIB_DIR omitted
  if libraryName = "orjson" ∧
      (strContains targetTriplet "aarch64" ∨ strContains targetTriplet "arm64") then
    envSetdefault (envPop env "RUSTFLAGS") "ORJSON_DISABLE_YYJSON" "1"
  else env

/-! ## Helper lemmas -/

/-- Looking up the key just set. -/
theorem envSet_lookup_same (e : Env) (k v : String) : envSet e k v k = some v := by
  simp [envSet]

/-- Setting one key leaves other keys unchanged. -/
theorem envSet_lookup_ne (e : Env) (k v q : String) (h : q ≠ k) : envSet e k v q = e q := by
  simp [envSet, h]

/-- Popping one key leaves other keys unchanged. -/
theorem envPop_lookup_ne (e : Env) (k q : String) (h : q ≠ k) : envPop e k q = e q := by
  simp [envPop, h]

/-- A popped key is absent. -/
theorem envPop_lookup_same (e : Env) (k : String) : envPop e k k = none := by
  simp [envPop]

/-- `setdefault` on one key leaves other keys unchanged. -/
theorem envSetdefault_lookup_ne (e : Env) (k v q : String) (h : q ≠ k) :
    envSetdefault e k v q = e q := by
  unfold envSetdefault
  cases e k <;> simp [envSet, h]

/-- A list is a Boolean prefix of itself followed by anything. -/
theorem isPrefixOf_append_self (l t : List Char) : l.isPrefixOf (l ++ t) = true := by
  induction l with
  | nil => simp [List.isPrefixOf]
  | cons a as ih => simp [List.isPrefixOf, ih]

/-- A concatenation ends with its second operand. -/
theorem strEndsWith_append (s t : String) : strEndsWith (s ++ t) t = true := by
  show (t.data.reverse.isPrefixOf (s.data ++ t.data).reverse) = true
  rw [List.reverse_append]
  exact isPrefixOf_append_self _ _

/-- In the orjson/aarch64 branch of `build_wheel`, `RUSTFLAGS` has been
popped and is absent just before the final `RUSTFLAGS` assignment. -/
theorem buildWheelEnvPre_rustflags_none
    (env0 : Env) (libraryName targetTriplet pythonVersion pythonLibDir : String)
    (h1 : libraryName = "orjson") (h2 : strContains targetTriplet "aarch64" = true) :
    buildWheelEnvPre env0 libraryName targetTriplet pythonVersion pythonLibDir "RUSTFLAGS"
      = none := by
  unfold buildWheelEnvPre
  rw [if_pos ⟨h1, Or.inl h2⟩]
  rw [envSetdefault_lookup_ne _ _ _ _ (by decide)]
  exact envPop_lookup_same _ _

/-- Following the next-page links never reaches pages after the first page
without a next link; a fetch failure anywhere in the followed chain makes
the whole collection fail, whatever was already collected. -/
theorem collect_fetchErr_none (pythonVersion : String) (pre : List (List String))
    (post : List TagsPage) :
    collectPatchNums pythonVersion
        (pre.map (fun ts => TagsPage.page ts true) ++ TagsPage.fetchErr :: post)
      = none := by
  induction pre with
  | nil => rfl
  | cons ts pre ih => simp [collectPatchNums, ih]

/-- A fully successful pagination chain collects the parsed patch numbers
of all its pages, in page order. -/
theorem collect_chain_some (pythonVersion : String) (body : List (List String))
    (lastTags : List String) :
    collectPatchNums pythonVersion
        (body.map (fun ts => TagsPage.page ts true) ++ [TagsPage.page lastTags false])
      = some (collectedNums pythonVersion body lastTags) := by
  induction body with
  | nil => simp [collectPatchNums, collectedNums]
  | cons ts body ih => simp [collectPatchNums, collectedNums, ih]

/-- The fold computing the head of a stable descending sort by mtime:
its result is the initial accumulator or a list element, and its mtime
dominates the accumulator and every element. -/
theorem newest_foldl_spec (l : List FileEntry) (init : FileEntry) :
    (l.foldl (fun best g => if best.mtime < g.mtime then g else best) init = init
      ∨ l.foldl (fun best g => if best.mtime < g.mtime then g else best) init ∈ l)
    ∧ init.mtime ≤ (l.foldl (fun best g => if best.mtime < g.mtime then g else best) init).mtime
    ∧ ∀ g ∈ l,
        g.mtime ≤ (l.foldl (fun best g => if best.mtime < g.mtime then g else best) init).mtime := by
  induction l generalizing init with
  | nil => exact ⟨Or.inl rfl, Nat.le_refl _, by simp⟩
  | cons a l ih =>
    obtain ⟨h1, h2, h3⟩ := ih (if init.mtime < a.mtime then a else init)
    rw [List.foldl_cons]
    refine ⟨?_, ?_, ?_⟩
    · rcases h1 with h1 | h1
      · rw [h1]
        by_cases hc : init.mtime < a.mtime
        · rw [if_pos hc]; exact Or.inr (List.mem_cons_self _ _)
        · rw [if_neg hc]; exact Or.inl rfl
      · exact Or.inr (List.mem_cons_of_mem _ h1)
    · refine Nat.le_trans ?_ h2
      by_cases hc : init.mtime < a.mtime
      · rw [if_pos hc]; exact Nat.le_of_lt hc
      · rw [if_neg hc]
    · intro g hg
      rcases List.mem_cons.mp hg with hg | hg
      · rw [hg]
        refine Nat.le_trans ?_ h2
        by_cases hc : init.mtime < a.mtime
        · rw [if_pos hc]
        · rw [if_neg hc]; exact Nat.le_of_not_lt hc
      · exact h3 g hg

/-- `newestFirst` returns a member of the list whose mtime is maximal. -/
theorem newestFirst_spec (l : List FileEntry) (f : FileEntry) (h : newestFirst l = some f) :
    f ∈ l ∧ ∀ g ∈ l, g.mtime ≤ f.mtime := by
  cases l with
  | nil => cases h
  | cons a l =>
    obtain ⟨h1, h2, h3⟩ := newest_foldl_spec l a
    have hf : l.foldl (fun best g => if best.mtime < g.mtime then g else best) a = f := by
      injection h
    rw [hf] at h1 h2 h3
    constructor
    · rcases h1 with h1 | h1
      · rw [← h1]; exact List.mem_cons_self _ _
      · exact List.mem_cons_of_mem _ h1
    · intro g hg
      rcases List.mem_cons.mp hg with hg | hg
      · subst hg; exact h2
      · exact h3 g hg

/-- Every wheel candidate (primary as well as fallback search) has the
`.whl` extension. -/
theorem wheelCandidates_endsWith (isMaturin : Bool) (tw dist deep : List FileEntry) :
    ∀ g ∈ wheelCandidates isMaturin tw dist deep, strEndsWith g.name ".whl" = true := by
  intro g hg
  unfold wheelCandidates at hg
  dsimp only at hg
  split at hg <;> split at hg <;>
    (unfold globWhl at hg; exact (List.mem_filter.mp hg).2)

/-! ## Claim theorems -/

/-- C1 (amended): in the native strategy, `build_wheel` constructs a single
maturin command line, already in interpreter-auto-detect mode, and executes
it at most once per call; when that invocation fails, the
`CalledProcessError` propagates immediately — no second maturin invocation
of any kind is attempted. -/
theorem build_wheel_no_retry
    (pyprojectExists : Bool) (backend maturinExe : String) (env0 : Env)
    (libraryName targetTriplet pythonVersion pythonLibDir : String)
    (runFails : List String → Bool) :
    ((build_wheel pyprojectExists backend maturinExe env0 libraryName targetTriplet
        pythonVersion pythonLibDir runFails).1.countP
          (fun c => c = maturin_build_cmd maturinExe targetTriplet) ≤ 1)
    ∧ (pyprojectExists = true → backend = "maturin" →
        runFails ["rustup", "target", "add", targetTriplet] = false →
        runFails (maturin_build_cmd maturinExe targetTriplet) = true →
        build_wheel pyprojectExists backend maturinExe env0 libraryName targetTriplet
            pythonVersion pythonLibDir runFails
          = ([["rustup", "target", "add", targetTriplet],
              maturin_build_cmd maturinExe targetTriplet],
             .error (.calledProcessError (maturin_build_cmd maturinExe targetTriplet)))) := by
  have hne : ¬ (["rustup", "target", "add", targetTriplet]
      = maturin_build_cmd maturinExe targetTriplet) := by
    intro h
    have := congrArg List.length h
    simp [maturin_build_cmd] at this
  constructor
  · unfold build_wheel
    dsimp only
    split_ifs <;> simp [List.countP_cons, hne]
  · intro h1 h2 h3 h4
    simp [build_wheel, h1, h2, h3, h4]

/-- C1 counterexample: on a run whose maturin invocation fails, exactly one
maturin invocation is ever attempted (the claimed second, alternate-mode
invocation does not exist), the error propagates, and even the single
attempted command carries no `-i` interpreter argument. -/
theorem build_wheel_retry_refuted :
    (build_wheel true "maturin" "maturin" (fun _ => none) "orjson" "aarch64-linux-android"
        "3.13" "/tmp/prefix/lib" (fun c => c.head? = some "maturin")).1.countP
      (fun c => c = maturin_build_cmd "maturin" "aarch64-linux-android") = 1
    ∧ (build_wheel true "maturin" "maturin" (fun _ => none) "orjson" "aarch64-linux-android"
        "3.13" "/tmp/prefix/lib" (fun c => c.head? = some "maturin")).2
      = .error (.calledProcessError ["maturin", "build", "--release", "--target", "aarch64-linux-android"])
    ∧ "-i" ∉ maturin_build_cmd "maturin" "aarch64-linux-android" := by
  refine ⟨by decide, rfl, by decide⟩

/-- C1 witness: a concrete failing run settling all hypotheses of the
amended theorem. -/
theorem build_wheel_no_retry_witness :
    ((build_wheel true "maturin" "maturin" (fun _ => none) "orjson" "aarch64-linux-android"
        "3.13" "/tmp/prefix/lib" (fun c => c.head? = some "maturin")).1.countP
          (fun c => c = maturin_build_cmd "maturin" "aarch64-linux-android") ≤ 1)
    ∧ build_wheel true "maturin" "maturin" (fun _ => none) "orjson" "aarch64-linux-android"
        "3.13" "/tmp/prefix/lib" (fun c => c.head? = some "maturin")
      = ([["rustup", "target", "add", "aarch64-linux-android"],
          maturin_build_cmd "maturin" "aarch64-linux-android"],
         .error (.calledProcessError (maturin_build_cmd "maturin" "aarch64-linux-android"))) := by
  have h := build_wheel_no_retry true "maturin" "maturin" (fun _ => none) "orjson"
    "aarch64-linux-android" "3.13" "/tmp/prefix/lib" (fun c => c.head? = some "maturin")
  exact ⟨h.1, h.2 rfl rfl (by decide) (by decide)⟩

set_option maxRecDepth 8000 in
/-- C2 (code bug exhibit): `patch_orjson_for_android` is not idempotent on
`pystr.rs`.  On a tree whose `avx512.rs` already carries its guard and
whose `pystr.rs` consists of the avx512 detection site, the first
invocation correctly inserts one inline guard, but a second invocation
inserts a second copy of the same guard (the replacement string contains
the search pattern, so `str.replace` fires again), so the file contents
after two invocations differ from the contents after one. -/
theorem patch_orjson_duplicates_pystr_guard :
    patch_orjson_for_android (some orjsonAvxGuard) (some avx512DetectPat)
      = (some orjsonAvxGuard, some (orjsonCfgGuard ++ "\n        " ++ avx512DetectPat))
    ∧ patch_orjson_for_android (some orjsonAvxGuard)
        (some (orjsonCfgGuard ++ "\n        " ++ avx512DetectPat))
      = (some orjsonAvxGuard,
         some (orjsonCfgGuard ++ "\n        " ++ orjsonCfgGuard ++ "\n        " ++ avx512DetectPat))
    ∧ patch_pystr_rs (patch_pystr_rs avx512DetectPat) ≠ patch_pystr_rs avx512DetectPat := by
  refine ⟨by decide, by decide, by decide⟩

/-- C3 (amended): `build_wheel_with_cross` extends the ambient environment
with `CARGO_COMMAND=cross` and the PyO3 cross-mode flags only; it declares
no sysconfig data name and no library search path (for Android targets
`PYO3_CROSS_LIB_DIR` is deliberately omitted, and the function performs no
introspection of the provisioned Python runtime, whose location it does
not even receive). -/
theorem cross_env_no_runtime_introspection
    (env0 : Env) (libraryName targetTriplet pythonVersion : String) :
    crossBuildEnv env0 libraryName targetTriplet pythonVersion "CARGO_COMMAND" = some "cross"
    ∧ crossBuildEnv env0 libraryName targetTriplet pythonVersion "PYO3_CROSS" = some "1"
    ∧ crossBuildEnv env0 libraryName targetTriplet pythonVersion "PYO3_CROSS_PYTHON_VERSION"
        = some pythonVersion
    ∧ (env0 "PYO3_CROSS_LIB_DIR" = none →
        crossBuildEnv env0 libraryName targetTriplet pythonVersion "PYO3_CROSS_LIB_DIR" = none)
    ∧ (env0 "_PYTHON_SYSCONFIGDATA_NAME" = none →
        crossBuildEnv env0 libraryName targetTriplet pythonVersion "_PYTHON_SYSCONFIGDATA_NAME"
          = none) := by
  unfold crossBuildEnv
  split
  case isTrue h =>
    refine ⟨?_, ?_, ?_, ?_, ?_⟩
    · rw [envSetdefault_lookup_ne _ _ _ _ (by decide), envPop_lookup_ne _ _ _ (by decide),
        envSet_lookup_ne _ _ _ _ (by decide), envSet_lookup_ne _ _ _ _ (by decide),
        envSet_lookup_ne _ _ _ _ (by decide)]
      exact envSet_lookup_same _ _ _
    · rw [envSetdefault_lookup_ne _ _ _ _ (by decide), envPop_lookup_ne _ _ _ (by decide),
        envSet_lookup_ne _ _ _ _ (by decide), envSet_lookup_ne _ _ _ _ (by decide)]
      exact envSet_lookup_same _ _ _
    · rw [envSetdefault_lookup_ne _ _ _ _ (by decide), envPop_lookup_ne _ _ _ (by decide),
        envSet_lookup_ne _ _ _ _ (by decide)]
      exact envSet_lookup_same _ _ _
    · intro h0
      rw [envSetdefault_lookup_ne _ _ _ _ (by decide), envPop_lookup_ne _ _ _ (by decide),
        envSet_lookup_ne _ _ _ _ (by decide), envSet_lookup_ne _ _ _ _ (by decide),
        envSet_lookup_ne _ _ _ _ (by decide), envSet_lookup_ne _ _ _ _ (by decide)]
      exact h0
    · intro h0
      rw [envSetdefault_lookup_ne _ _ _ _ (by decide), envPop_lookup_ne _ _ _ (by decide),
        envSet_lookup_ne _ _ _ _ (by decide), envSet_lookup_ne _ _ _ _ (by decide),
        envSet_lookup_ne _ _ _ _ (by decide), envSet_lookup_ne _ _ _ _ (by decide)]
      exact h0
  case isFalse h =>
    refine ⟨?_, ?_, ?_, ?_, ?_⟩
    · rw [envSet_lookup_ne _ _ _ _ (by decide), envSet_lookup_ne _ _ _ _ (by decide),
        envSet_lookup_ne _ _ _ _ (by decide)]
      exact envSet_lookup_same _ _ _
    · rw [envSet_lookup_ne _ _ _ _ (by decide), envSet_lookup_ne _ _ _ _ (by decide)]
      exact envSet_lookup_same _ _ _
    · rw [envSet_lookup_ne _ _ _ _ (by decide)]
      exact envSet_lookup_same _ _ _
    · intro h0
      rw [envSet_lookup_ne _ _ _ _ (by decide), envSet_lookup_ne _ _ _ _ (by decide),
        envSet_lookup_ne _ _ _ _ (by decide), envSet_lookup_ne _ _ _ _ (by decide)]
      exact h0
    · intro h0
      rw [envSet_lookup_ne _ _ _ _ (by decide), envSet_lookup_ne _ _ _ _ (by decide),
        envSet_lookup_ne _ _ _ _ (by decide), envSet_lookup_ne _ _ _ _ (by decide)]
      exact h0

/-- C3 counterexample: a concrete `build_wheel_with_cross` environment (an
orjson aarch64 Android build over an empty base environment) contains
neither a sysconfig data name (`_PYTHON_SYSCONFIGDATA_NAME`) nor a library
search path (`PYO3_CROSS_LIB_DIR`, `LIBRARY_PATH`), contradicting the
claim that every invocation declares those two variables. -/
theorem cross_env_sysconfig_refuted :
    crossBuildEnv (fun _ => none) "orjson" "aarch64-linux-android" "3.13" "PYO3_CROSS_LIB_DIR"
      = none
    ∧ crossBuildEnv (fun _ => none) "orjson" "aarch64-linux-android" "3.13"
        "_PYTHON_SYSCONFIGDATA_NAME" = none
    ∧ crossBuildEnv (fun _ => none) "orjson" "aarch64-linux-android" "3.13" "LIBRARY_PATH"
      = none
    ∧ crossBuildEnv (fun _ => none) "orjson" "aarch64-linux-android" "3.13" "CARGO_COMMAND"
      = some "cross" := by
  refine ⟨?_, ?_, ?_, ?_⟩ <;> decide

/-- C3 witness: the amended theorem applied to a concrete non-orjson
invocation over an empty base environment. -/
theorem cross_env_witness :
    crossBuildEnv (fun _ => none) "foo" "aarch64-linux-android" "3.13" "CARGO_COMMAND"
      = some "cross"
    ∧ crossBuildEnv (fun _ => none) "foo" "aarch64-linux-android" "3.13" "PYO3_CROSS_LIB_DIR"
      = none
    ∧ crossBuildEnv (fun _ => none) "foo" "aarch64-linux-android" "3.13"
        "_PYTHON_SYSCONFIGDATA_NAME" = none := by
  have h := cross_env_no_runtime_introspection (fun _ => none) "foo" "aarch64-linux-android" "3.13"
  exact ⟨h.1, h.2.2.2.1 rfl, h.2.2.2.2 rfl⟩

/-- C4: latest-patch resolution pages through the tag listing until no
next-page link is present; a fetch/parse failure at any point of the
followed chain yields `{major}.{minor}.0`, whatever the earlier pages
contained (never a maximum computed from a partial tag set); a fully
successful chain yields `{major}.{minor}.` joined with the maximum patch
number parsed from the prefix-matching tags of all pages. -/
theorem latest_patch_resolution_correct :
    (∀ (pythonVersion : String) (pre : List (List String)) (post : List TagsPage),
       get_latest_patch_for_python pythonVersion
         (pre.map (fun ts => TagsPage.page ts true) ++ TagsPage.fetchErr :: post)
         = pythonVersion ++ ".0")
    ∧ (∀ (pythonVersion : String) (body : List (List String)) (lastTags : List String),
       collectedNums pythonVersion body lastTags ≠ [] →
       get_latest_patch_for_python pythonVersion
         (body.map (fun ts => TagsPage.page ts true) ++ [TagsPage.page lastTags false])
         = pythonVersion ++ "."
             ++ toString ((collectedNums pythonVersion body lastTags).foldl Nat.max 0)) := by
  constructor
  · intro pythonVersion pre post
    unfold get_latest_patch_for_python
    rw [collect_fetchErr_none]
  · intro pythonVersion body lastTags h
    unfold get_latest_patch_for_python
    rw [collect_chain_some]
    cases hn : collectedNums pythonVersion body lastTags with
    | nil => exact absurd hn h
    | cons n ns => rfl

/-- C4 witness: the two-page synthetic tag listing resolves to the maximum
patch `3.14.2`; an injected failure on the second page yields `3.14.0`
rather than the partial max `3.14.2` of page one. -/
theorem latest_patch_resolution_witness :
    get_latest_patch_for_python "3.14"
        [TagsPage.page ["v3.14.0", "v3.14.2"] true, TagsPage.page ["v3.14.1"] false]
      = "3.14.2"
    ∧ get_latest_patch_for_python "3.14"
        [TagsPage.page ["v3.14.0", "v3.14.2"] true, TagsPage.fetchErr]
      = "3.14.0" := by
  constructor
  · have h := latest_patch_resolution_correct.2 "3.14" [["v3.14.0", "v3.14.2"]] ["v3.14.1"]
      (by decide)
    exact h.trans (by decide)
  · have h := latest_patch_resolution_correct.1 "3.14" [["v3.14.0", "v3.14.2"]] []
    exact h.trans (by decide)

/-- C5: wheel discovery globs the strategy-specific primary directory
first and consults the recursive fallback only when that yields nothing;
zero matches in both is the fatal artifact-not-found error; a returned
wheel always has the `.whl` extension (so a `.whl.bak` file is never a
candidate, whatever its mtime) and its mtime dominates every candidate. -/
theorem wheel_discovery_correct :
    (∀ (isMaturin : Bool) (tw dist deep : List FileEntry),
       (globWhl (if isMaturin then tw else dist)).isEmpty = false →
       discoverWheel isMaturin tw dist deep = discoverWheel isMaturin tw dist [])
    ∧ (∀ (isMaturin : Bool) (tw dist deep : List FileEntry),
       globWhl (if isMaturin then tw else dist) = [] → globWhl deep = [] →
       discoverWheel isMaturin tw dist deep = .error "No wheel files found after build.")
    ∧ (∀ (isMaturin : Bool) (tw dist deep : List FileEntry) (f : FileEntry),
       discoverWheel isMaturin tw dist deep = .ok f →
       strEndsWith f.name ".whl" = true
       ∧ ∀ g ∈ wheelCandidates isMaturin tw dist deep, g.mtime ≤ f.mtime) := by
  refine ⟨?_, ?_, ?_⟩
  · intro isMaturin tw dist deep h
    simp [discoverWheel, wheelCandidates, h]
  · intro isMaturin tw dist deep h1 h2
    simp [discoverWheel, wheelCandidates, h1, h2, newestFirst]
  · intro isMaturin tw dist deep f h
    unfold discoverWheel at h
    cases hn : newestFirst (wheelCandidates isMaturin tw dist deep) with
    | none => rw [hn] at h; cases h
    | some g =>
      rw [hn] at h
      injection h with h
      subst h
      obtain ⟨hmem, hmax⟩ := newestFirst_spec _ _ hn
      exact ⟨wheelCandidates_endsWith isMaturin tw dist deep _ hmem, hmax⟩

/-- C5 witness: in a primary directory holding a `.whl` (mtime 1) and a
newer `.whl.bak` (mtime 2), discovery selects exactly the `.whl` file. -/
theorem wheel_discovery_witness :
    discoverWheel true
        [⟨"a-1.0-cp313-cp313-linux_x86_64.whl", 1⟩, ⟨"a-1.0-cp313-cp313-linux_x86_64.whl.bak", 2⟩]
        [] []
      = .ok ⟨"a-1.0-cp313-cp313-linux_x86_64.whl", 1⟩
    ∧ strEndsWith "a-1.0-cp313-cp313-linux_x86_64.whl" ".whl" = true := by
  have hd : discoverWheel true
      [⟨"a-1.0-cp313-cp313-linux_x86_64.whl", 1⟩, ⟨"a-1.0-cp313-cp313-linux_x86_64.whl.bak", 2⟩]
      [] []
      = .ok ⟨"a-1.0-cp313-cp313-linux_x86_64.whl", 1⟩ := by rfl
  exact ⟨hd, (wheel_discovery_correct.2.2 true _ _ _ _ hd).1⟩

/-- C6: after a successful discovery with no pinned version, the final
artifact name is the library name with dashes underscored, the second
dash-separated segment of the discovered wheel filename, the doubled
`cp{major}{minor}` tag, and `android_{api}_{abi-with-dashes-underscored}`,
with the `.whl` extension; fewer than two dash-separated segments in the
discovered filename is the fatal version-parse error. -/
theorem wheel_renaming_correct :
    (∀ (libraryName : String) (isMaturin : Bool) (tw dist deep : List FileEntry)
       (pythonVersion androidApi targetAbi : String) (w : FileEntry)
       (name0 ver : String) (rest : List String),
       discoverWheel isMaturin tw dist deep = .ok w →
       pySplit w.name "-" = name0 :: ver :: rest →
       process_wheel libraryName none isMaturin tw dist deep pythonVersion androidApi targetAbi
         = .ok (pyReplace libraryName "-" "_" ++ "-" ++ ver ++ "-"
             ++ ("cp" ++ pyReplace pythonVersion "." "") ++ "-"
             ++ ("cp" ++ pyReplace pythonVersion "." "") ++ "-android_" ++ androidApi ++ "_"
             ++ pyReplace targetAbi "-" "_" ++ ".whl"))
    ∧ (∀ (libraryName : String) (isMaturin : Bool) (tw dist deep : List FileEntry)
       (pythonVersion androidApi targetAbi : String) (w : FileEntry),
       discoverWheel isMaturin tw dist deep = .ok w →
       (pySplit w.name "-").length < 2 →
       process_wheel libraryName none isMaturin tw dist deep pythonVersion androidApi targetAbi
         = .error ("Cannot extract version from wheel filename: " ++ w.name)) := by
  constructor
  · intro libraryName isMaturin tw dist deep pythonVersion androidApi targetAbi w name0 ver
      rest hd hsplit
    simp [process_wheel, hd, processWheelName, hsplit]
  · intro libraryName isMaturin tw dist deep pythonVersion androidApi targetAbi w hd hlen
    cases hsplit : pySplit w.name "-" with
    | nil => simp [process_wheel, hd, processWheelName, hsplit]
    | cons a t =>
      cases t with
      | nil => simp [process_wheel, hd, processWheelName, hsplit]
      | cons b t2 =>
        rw [hsplit] at hlen
        simp only [List.length_cons] at hlen
        omega

/-- C6 witness: the orjson example of the specification: the raw maturin
artifact name supplies the version segment and the canonical Android name
is produced. -/
theorem wheel_renaming_witness :
    process_wheel "orjson" none true [⟨"orjson-3.10.7-cp313-cp313-linux_x86_64.whl", 5⟩] [] []
        "3.13" "24" "arm64-v8a"
      = .ok "orjson-3.10.7-cp313-cp313-android_24_arm64_v8a.whl" := by
  have h := wheel_renaming_correct.1 "orjson" true
    [⟨"orjson-3.10.7-cp313-cp313-linux_x86_64.whl", 5⟩] [] [] "3.13" "24" "arm64-v8a"
    ⟨"orjson-3.10.7-cp313-cp313-linux_x86_64.whl", 5⟩
    "orjson" "3.10.7" ["cp313", "cp313", "linux_x86_64.whl"] rfl (by decide)
  exact h.trans (congrArg Except.ok (by decide))

/-- C7: for an already-present NDK path, `setup_ndk` performs no download,
extraction, rename, unlink or chmod action; for an already-present
`prefix/lib` directory, `setup_python_cross_build` returns exactly that
directory with an empty effect trace — cached state is returned unchanged,
with no validation of contents and no version check. -/
theorem provisioner_cache_idempotent
    (ndkPathExists : Bool) (ndkPath ndkParent ndkVersion : String)
    (w : PyWorld) (downloadPath pythonVersion targetTriplet latestPatch : String) :
    (ndkPathExists = true → setup_ndk ndkPathExists ndkPath ndkParent ndkVersion = [])
    ∧ (w.libDirExists = true →
        setup_python_cross_build w downloadPath pythonVersion targetTriplet latestPatch
          = (.ok (downloadPath ++ "/prefix/lib"), [])) := by
  constructor
  · intro h; simp [setup_ndk, h]
  · intro h; simp [setup_python_cross_build, h]

/-- C7 witness: concrete cache hits for both provisioners. -/
theorem provisioner_cache_witness :
    setup_ndk true "/tmp/android-ndk-r26d" "/tmp" "r26d" = []
    ∧ setup_python_cross_build ⟨true, false, false, false, false⟩ "/tmp" "3.13"
        "aarch64-linux-android" "3.13.9"
      = (.ok ("/tmp" ++ "/prefix/lib"), []) := by
  have h := provisioner_cache_idempotent true "/tmp/android-ndk-r26d" "/tmp" "r26d"
    ⟨true, false, false, false, false⟩ "/tmp" "3.13" "aarch64-linux-android" "3.13.9"
  exact ⟨h.1 rfl, h.2 rfl⟩

/-- C8: `patch_pyo3_cargo_toml` is idempotent: a second application leaves
the file exactly as after the first and performs no write (it finds
`extension-module` already present, or hits the same skip branch), and a
write only ever happens when the file actually changed. -/
theorem patch_pyo3_idempotent (st : Option CargoToml) :
    (patch_pyo3_cargo_toml (patch_pyo3_cargo_toml st).1).1 = (patch_pyo3_cargo_toml st).1
    ∧ (patch_pyo3_cargo_toml (patch_pyo3_cargo_toml st).1).2 = false
    ∧ ((patch_pyo3_cargo_toml st).2 = true → (patch_pyo3_cargo_toml st).1 ≠ st) := by
  match st with
  | none => simp [patch_pyo3_cargo_toml]
  | some ⟨none⟩ => simp [patch_pyo3_cargo_toml]
  | some ⟨some (.verStr v)⟩ => simp [patch_pyo3_cargo_toml]
  | some ⟨some .unsupported⟩ => simp [patch_pyo3_cargo_toml]
  | some ⟨some (.table version? features)⟩ =>
    by_cases h : "extension-module" ∈ features
    · simp [patch_pyo3_cargo_toml, h]
    · refine ⟨?_, ?_, ?_⟩
      · simp [patch_pyo3_cargo_toml, h]
      · simp [patch_pyo3_cargo_toml, h]
      · intro _ heq
        simp [patch_pyo3_cargo_toml, h] at heq

/-- C8 witness: a bare version-string dependency is normalized and written
once; both idempotence conjuncts and the write-implies-change conjunct at
that concrete manifest. -/
theorem patch_pyo3_idempotent_witness :
    (patch_pyo3_cargo_toml (patch_pyo3_cargo_toml (some ⟨some (.verStr "0.20")⟩)).1).1
      = (patch_pyo3_cargo_toml (some ⟨some (.verStr "0.20")⟩)).1
    ∧ (patch_pyo3_cargo_toml (patch_pyo3_cargo_toml (some ⟨some (.verStr "0.20")⟩)).1).2 = false
    ∧ (patch_pyo3_cargo_toml (some ⟨some (.verStr "0.20")⟩)).1 ≠ some ⟨some (.verStr "0.20")⟩ := by
  have h := patch_pyo3_idempotent (some ⟨some (.verStr "0.20")⟩)
  exact ⟨h.1, h.2.1, h.2.2 (by decide)⟩

/-- C9: with no cached `prefix/lib` directory, a parsed minor version
below 13 raises `ValueError` with an empty effect trace (no URL is even
constructed in that branch, which precedes both URL construction and any
download or extraction); with the cached directory present, the same call
succeeds for any version string with no version check at all. -/
theorem python_setup_pre313_value_error
    (w : PyWorld) (downloadPath pythonVersion targetTriplet latestPatch : String)
    (major minor : Nat) :
    (w.libDirExists = false →
      pyVersionParts pythonVersion = some (major, minor) →
      minor < 13 →
      setup_python_cross_build w downloadPath pythonVersion targetTriplet latestPatch
        = (.error (.valueError "Python < 3.13 is not supported for pre-built downloads. Please build it yourself."), []))
    ∧ (w.libDirExists = true →
        setup_python_cross_build w downloadPath pythonVersion targetTriplet latestPatch
          = (.ok (downloadPath ++ "/prefix/lib"), [])) := by
  constructor
  · intro h hp hm
    simp [setup_python_cross_build, h, hp, hm]
  · intro h
    simp [setup_python_cross_build, h]

/-- C9 witness: Python 3.12 uncached raises; Python 3.12 cached returns
the lib directory. -/
theorem python_setup_pre313_witness :
    setup_python_cross_build ⟨false, false, false, false, false⟩ "/tmp" "3.12"
        "aarch64-linux-android" "3.12.0"
      = (.error (.valueError "Python < 3.13 is not supported for pre-built downloads. Please build it yourself."), [])
    ∧ setup_python_cross_build ⟨true, false, false, false, false⟩ "/tmp" "3.12"
        "aarch64-linux-android" "3.12.0"
      = (.ok ("/tmp" ++ "/prefix/lib"), []) := by
  refine ⟨(python_setup_pre313_value_error ⟨false, false, false, false, false⟩ "/tmp" "3.12"
      "aarch64-linux-android" "3.12.0" 3 12).1 rfl (by decide) (by decide),
    (python_setup_pre313_value_error ⟨true, false, false, false, false⟩ "/tmp" "3.12"
      "aarch64-linux-android" "3.12.0" 3 12).2 rfl⟩

/-- C10: the environment `build_wheel` passes to maturin always defines
`RUSTFLAGS` with a value ending in the verbose linker flag (preceded by a
space); for orjson on an aarch64 triplet, where the inherited value was
popped, it is exactly the space plus the flag — the build never runs with
`RUSTFLAGS` unset. -/
theorem rustflags_verbose_linker_flag
    (env0 : Env) (libraryName targetTriplet pythonVersion pythonLibDir : String) :
    (∃ v, buildWheelEnv env0 libraryName targetTriplet pythonVersion pythonLibDir "RUSTFLAGS"
          = some v
        ∧ strEndsWith v (" " ++ verboseLinkerFlag) = true)
    ∧ (libraryName = "orjson" → strContains targetTriplet "aarch64" = true →
        buildWheelEnv env0 libraryName targetTriplet pythonVersion pythonLibDir "RUSTFLAGS"
          = some (" " ++ verboseLinkerFlag)) := by
  constructor
  · refine ⟨envGetD (buildWheelEnvPre env0 libraryName targetTriplet pythonVersion pythonLibDir)
        "RUSTFLAGS" "" ++ (" " ++ verboseLinkerFlag), ?_, strEndsWith_append _ _⟩
    unfold buildWheelEnv
    rw [← String.append_assoc]
    exact envSet_lookup_same _ _ _
  · intro h1 h2
    unfold buildWheelEnv
    rw [envSet_lookup_same]
    rw [envGetD,
      buildWheelEnvPre_rustflags_none env0 libraryName targetTriplet pythonVersion pythonLibDir
        h1 h2]
    rfl

/-- C10 witness: an orjson aarch64 build whose inherited `RUSTFLAGS`
forced an x86 feature: the final value is exactly the space plus the
verbose linker flag. -/
theorem rustflags_verbose_linker_witness :
    (∃ v, buildWheelEnv (fun k => if k = "RUSTFLAGS" then some "-C target-feature=+avx2" else none)
          "orjson" "aarch64-linux-android" "3.13" "/tmp/prefix/lib" "RUSTFLAGS" = some v
        ∧ strEndsWith v (" " ++ verboseLinkerFlag) = true)
    ∧ buildWheelEnv (fun k => if k = "RUSTFLAGS" then some "-C target-feature=+avx2" else none)
        "orjson" "aarch64-linux-android" "3.13" "/tmp/prefix/lib" "RUSTFLAGS"
      = some (" " ++ verboseLinkerFlag) := by
  have h := rustflags_verbose_linker_flag
    (fun k => if k = "RUSTFLAGS" then some "-C target-feature=+avx2" else none)
    "orjson" "aarch64-linux-android" "3.13" "/tmp/prefix/lib"
  exact ⟨h.1, h.2 rfl (by decide)⟩
